import Mathlib

/-!
# Verification of the rws-py receiver web server

A shallow embedding in Lean 4 of the two Python variants of the
"Receiver Web Server" (`app.py`, raw `http.server` variant, and
`main.py`, Flask variant), together with theorems checking the
natural-language specification against the embedded code.

Conventions of the embedding:
* Python strings are Lean `String`s; `None` becomes `Option.none`.
* Python truthiness of optional strings / parsed query values is made
  explicit (`pyTruthy`, `truthyQVal`).
* The network is an oracle `OutboundRequest → Except String String`:
  `Except.ok body` models a successful outbound call, `Except.error e`
  models any exception raised inside the `try` block (DNS failure,
  connection refused, timeout, undecodable body, ...).
* Mutable global state (`logs` plus the CLI logging sink) is threaded
  explicitly as a `LogState`; `logging.info` is modelled as appending
  one element to the `cli` list.
* `datetime.now()` is an explicit `timestamp` parameter.
* A handler that raises an uncaught exception is modelled by returning
  `none` instead of `some response`.
-/

namespace RwsPy

/-- Python truthiness of an optional string: `None` and `""` are falsy. -/
def pyTruthy : Option String → Bool
  | none => false
  | some s => s ≠ ""

/-- `route.lstrip("/")`: remove every leading `/`. -/
def lstripSlash (s : String) : String :=
  String.mk (s.toList.dropWhile (fun c => c = '/'))

/-- `route.strip("/")`: remove every leading and trailing `/`. -/
def stripSlash (s : String) : String :=
  String.mk (((s.toList.dropWhile (fun c => c = '/')).reverse.dropWhile
    (fun c => c = '/')).reverse)

/-! ### Kernel-reducible string primitives

The embedding only uses structurally recursive list operations so every
definition evaluates by `decide` / `rfl` on concrete inputs. -/

/-- Split a character list at every occurrence of `c` (like Python's
`s.split(sep)` for a one-character separator: `""` splits to `[""]`,
adjacent separators yield empty fields). -/
def splitOnCharGo (c : Char) : List Char → List Char → List (List Char)
  | [], cur => [cur.reverse]
  | x :: xs, cur =>
    if x = c then cur.reverse :: splitOnCharGo c xs []
    else splitOnCharGo c xs (x :: cur)

/-- `s.split(c)` for a one-character separator. -/
def splitChar (s : String) (c : Char) : List String :=
  (splitOnCharGo c s.toList []).map String.mk

/-- Fuel-indexed worker for `str.replace` (left-to-right,
non-overlapping; the fuel is the length of the subject and suffices for
any nonempty pattern). -/
def replaceGo (pat repl : List Char) : Nat → List Char → List Char
  | 0, l => l
  | _, [] => []
  | fuel + 1, x :: xs =>
    if pat.isPrefixOf (x :: xs) then
      repl ++ replaceGo pat repl fuel ((x :: xs).drop pat.length)
    else x :: replaceGo pat repl fuel xs

/-- Python `s.replace(pat, repl)` for a nonempty `pat`. -/
def pyReplace (s pat repl : String) : String :=
  String.mk (replaceGo pat.toList repl.toList s.toList.length s.toList)

/-- Does `pat` occur as a contiguous substring of `l`? -/
def containsList (pat : List Char) : List Char → Bool
  | [] => pat.isPrefixOf ([] : List Char)
  | x :: xs => pat.isPrefixOf (x :: xs) || containsList pat xs

/-- `pat in s` (substring containment). -/
def containsStr (s pat : String) : Bool :=
  containsList pat.toList s.toList

/-- `s.startswith(pat)`. -/
def startsWithStr (s pat : String) : Bool :=
  pat.toList.isPrefixOf s.toList

/-- Concatenate a list of strings with a separator between elements. -/
def joinSep (sep : String) : List String → String
  | [] => ""
  | [x] => x
  | x :: y :: xs => x ++ sep ++ joinSep sep (y :: xs)

/-! ## `urllib.parse.unquote` / percent-decoding

`parse_qs` percent-decodes each name and value with
`unquote(well, unquote_plus: '+' → ' ' first)`, decoding maximal runs of
`%XX` escapes as UTF-8 byte sequences with `errors='replace'`. -/

/-- Value of a hex digit, if `c` is one (both cases accepted). -/
def hexDigitVal (c : Char) : Option Nat :=
  if '0' ≤ c ∧ c ≤ '9' then some (c.toNat - 48)
  else if 'a' ≤ c ∧ c ≤ 'f' then some (c.toNat - 87)
  else if 'A' ≤ c ∧ c ≤ 'F' then some (c.toNat - 55)
  else none

/-- Is `b` a UTF-8 continuation byte? -/
def isContByte (b : Nat) : Bool := 0x80 ≤ b ∧ b ≤ 0xBF

/-- The Unicode replacement character, used for `errors='replace'`. -/
def replacementChar : Char := Char.ofNat 0xFFFD

/-- Fuel-indexed UTF-8 decoder with replacement on error (the fuel is an
upper bound on the number of bytes and never runs out when initialised
with the length of the list). -/
def utf8DecodeGo : Nat → List Nat → List Char
  | 0, _ => []
  | _, [] => []
  | fuel + 1, b :: rest =>
    if b < 0x80 then
      Char.ofNat b :: utf8DecodeGo fuel rest
    else if 0xC2 ≤ b ∧ b ≤ 0xDF then
      match rest with
      | c1 :: rest' =>
        if isContByte c1 then
          Char.ofNat ((b - 0xC0) * 64 + (c1 - 0x80)) :: utf8DecodeGo fuel rest'
        else replacementChar :: utf8DecodeGo fuel rest
      | [] => [replacementChar]
    else if 0xE0 ≤ b ∧ b ≤ 0xEF then
      match rest with
      | c1 :: c2 :: rest' =>
        if (isContByte c1 ∧
             (b ≠ 0xE0 ∨ 0xA0 ≤ c1) ∧ (b ≠ 0xED ∨ c1 ≤ 0x9F)) ∧ isContByte c2 then
          Char.ofNat ((b - 0xE0) * 4096 + (c1 - 0x80) * 64 + (c2 - 0x80)) ::
            utf8DecodeGo fuel rest'
        else replacementChar :: utf8DecodeGo fuel rest
      | _ => [replacementChar]
    else if 0xF0 ≤ b ∧ b ≤ 0xF4 then
      match rest with
      | c1 :: c2 :: c3 :: rest' =>
        if ((isContByte c1 ∧ (b ≠ 0xF0 ∨ 0x90 ≤ c1) ∧ (b ≠ 0xF4 ∨ c1 ≤ 0x8F)) ∧
             isContByte c2) ∧ isContByte c3 then
          Char.ofNat ((b - 0xF0) * 262144 + (c1 - 0x80) * 4096 +
              (c2 - 0x80) * 64 + (c3 - 0x80)) ::
            utf8DecodeGo fuel rest'
        else replacementChar :: utf8DecodeGo fuel rest
      | _ => [replacementChar]
    else
      replacementChar :: utf8DecodeGo fuel rest

/-- Decode a byte sequence as UTF-8 with `errors='replace'`. -/
def utf8DecodeReplace (l : List Nat) : List Char :=
  utf8DecodeGo l.length l

/-- Collect a maximal run of `%XX` hex escapes, returning the decoded
bytes and the remaining characters. -/
def collectPct : List Char → List Nat × List Char
  | '%' :: a :: b :: rest =>
    match hexDigitVal a, hexDigitVal b with
    | some ha, some hb =>
      let p := collectPct rest
      ((ha * 16 + hb) :: p.1, p.2)
    | _, _ => ([], '%' :: a :: b :: rest)
  | l => ([], l)

/-- Fuel-indexed worker for `unquote` (fuel bounds the character count;
each step consumes at least one character). -/
def unquoteGo : Nat → List Char → List Char
  | 0, _ => []
  | _, [] => []
  | fuel + 1, l =>
    match l with
    | '%' :: a :: b :: rest =>
      match hexDigitVal a, hexDigitVal b with
      | some _, some _ =>
        let p := collectPct ('%' :: a :: b :: rest)
        utf8DecodeReplace p.1 ++ unquoteGo fuel p.2
      | _, _ => '%' :: unquoteGo fuel (a :: b :: rest)
    | c :: rest => c :: unquoteGo fuel rest
    | [] => []

/-- `urllib.parse.unquote(s, encoding='utf-8', errors='replace')`. -/
def unquote (s : String) : String :=
  String.mk (unquoteGo s.toList.length s.toList)

/-- `unquote(s.replace('+', ' '))`, as done by `parse_qsl` on each
name and value. -/
def unquotePlusSpace (s : String) : String :=
  unquote (pyReplace s "+" " ")

/-! ## `urllib.parse.parse_qs` -/

/-- `name_value.split('=', 1)`: split at the first occurrence of `c`;
`none` when `c` does not occur. -/
def splitOnceChar (s : String) (c : Char) : Option (String × String) :=
  let l := s.toList
  let pre := l.takeWhile (fun x => x ≠ c)
  let post := l.dropWhile (fun x => x ≠ c)
  match post with
  | [] => none
  | _ :: rest => some (String.mk pre, String.mk rest)

/-- `urllib.parse.parse_qsl(qs)` with the default
`keep_blank_values=False`, `strict_parsing=False`, `separator='&'`:
empty fields are skipped, fields without `=` and fields with an empty
raw value are dropped, names and values are plus- and percent-decoded. -/
def parse_qsl (qs : String) : List (String × String) :=
  (splitChar qs '&').filterMap fun name_value =>
    if name_value = "" then none
    else
      match splitOnceChar name_value '=' with
      | none => none
      | some (n, v) =>
        if v = "" then none
        else some (unquotePlusSpace n, unquotePlusSpace v)

/-- Insert one `(name, value)` pair into the ordered multi-dict built by
`parse_qs` (append to the value list of an existing key, else push the
key at the end, preserving first-occurrence order). -/
def addQsPair (acc : List (String × List String)) (kv : String × String) :
    List (String × List String) :=
  if acc.any (fun p => p.1 = kv.1) then
    acc.map (fun p => if p.1 = kv.1 then (p.1, p.2 ++ [kv.2]) else p)
  else acc ++ [(kv.1, [kv.2])]

/-- `urllib.parse.parse_qs(qs)`: group `parse_qsl` pairs into an ordered
mapping key → list of values (Python dicts preserve insertion order). -/
def parse_qs (qs : String) : List (String × List String) :=
  (parse_qsl qs).foldl addQsPair []

/-! ## `json.dumps(..., separators=(",", ":"))` for the values that
occur here: strings, lists of strings, and string-keyed dicts. -/

/-- Lowercase hex digit. -/
def hexDigitChar (n : Nat) : Char :=
  if n < 10 then Char.ofNat (48 + n) else Char.ofNat (87 + n)

/-- Four lowercase hex digits, as in Python's `\uXXXX` escapes. -/
def hex4 (n : Nat) : String :=
  String.mk [hexDigitChar (n / 4096 % 16), hexDigitChar (n / 256 % 16),
    hexDigitChar (n / 16 % 16), hexDigitChar (n % 16)]

/-- Escape one character the way `json.dumps` (default
`ensure_ascii=True`) does inside a string literal. -/
def jsonEscapeChar (c : Char) : String :=
  if c = '"' then "\\\""
  else if c = '\\' then "\\\\"
  else if c = Char.ofNat 10 then "\\n"
  else if c = Char.ofNat 13 then "\\r"
  else if c = Char.ofNat 9 then "\\t"
  else if c = Char.ofNat 8 then "\\b"
  else if c = Char.ofNat 12 then "\\f"
  else if c.toNat < 0x20 ∨ 0x7e < c.toNat then
    if 0x10000 ≤ c.toNat then
      let v := c.toNat - 0x10000
      "\\u" ++ hex4 (0xD800 + v / 1024) ++ "\\u" ++ hex4 (0xDC00 + v % 1024)
    else "\\u" ++ hex4 c.toNat
  else String.singleton c

/-- A JSON string literal for `s`, as `json.dumps` renders it. -/
def jsonStr (s : String) : String :=
  "\"" ++ joinSep "" (s.toList.map jsonEscapeChar) ++ "\""

/-- A parsed query-parameter value after the dict comprehension
`{k: (v[0] if len(v) == 1 else v) for k, v in query_params.items()}`:
a bare string when the key occurred once, a list of strings otherwise. -/
inductive QVal where
  | one (s : String)
  | many (l : List String)
deriving DecidableEq, Repr

/-- Python truthiness of a `QVal` (empty string and empty list falsy). -/
def truthyQVal : QVal → Bool
  | .one s => s ≠ ""
  | .many l => l ≠ []

/-- `json.dumps` of a `QVal` with compact separators. -/
def dumpsQVal : QVal → String
  | .one s => jsonStr s
  | .many l => "[" ++ joinSep "," (l.map jsonStr) ++ "]"

/-- `json.dumps(query_json, separators=(",", ":"))` for the string-keyed
dict `query_json` (insertion order preserved). -/
def dumpsDict (d : List (String × QVal)) : String :=
  "\x7b" ++
    joinSep "," (d.map fun p => jsonStr p.1 ++ ":" ++ dumpsQVal p.2) ++
    "\x7d"

/-- `json.dumps({"query": query}, separators=(",", ":"))`, the payload of
the outbound relay request. -/
def dumpsQueryPayload (query : QVal) : String :=
  "\x7b\"query\":" ++ dumpsQVal query ++ "\x7d"

/-! ## `urllib.parse.urlparse` -/

/-- The result of `urlparse` (only the components the code reads). -/
structure UrlParts where
  scheme : String
  netloc : String
  path : String
  params : String
  query : String
  fragment : String
deriving DecidableEq, Repr

/-- Characters allowed in a URL scheme (`scheme_chars`). -/
def schemeChar (c : Char) : Bool :=
  c.isAlpha || c.isDigit || c = '+' || c = '-' || c = '.'

/-- WHATWG "C0 control or space" predicate used by `urlsplit` to strip
the ends of the URL. -/
def isC0OrSpace (c : Char) : Bool := c.toNat ≤ 0x20

/-- Strip leading and trailing C0-control-or-space characters. -/
def stripC0Space (s : String) : String :=
  String.mk (((s.toList.dropWhile isC0OrSpace).reverse.dropWhile
    isC0OrSpace).reverse)

/-- Remove the unsafe bytes tab, CR and LF anywhere in the URL. -/
def removeUnsafeBytes (s : String) : String :=
  pyReplace (pyReplace (pyReplace s "\t" "") "\r" "") "\n" ""

/-- Index of the first occurrence of `c` in `l`. -/
def findIdxChar (l : List Char) (c : Char) : Option Nat :=
  l.findIdx? (fun x => x = c)

/-- Index of the first occurrence of `c` in `l` at or after `start`. -/
def findIdxCharFrom (l : List Char) (c : Char) (start : Nat) : Option Nat :=
  match findIdxChar (l.drop start) c with
  | some i => some (start + i)
  | none => none

/-- Index of the last occurrence of `c` in `l`. -/
def rfindIdxChar (l : List Char) (c : Char) : Option Nat :=
  match findIdxChar l.reverse c with
  | some i => some (l.length - 1 - i)
  | none => none

/-- `_splitnetloc`: the netloc extends to the first `/`, `?` or `#`. -/
def splitNetloc (l : List Char) : List Char × List Char :=
  let netloc := l.takeWhile (fun c => c ≠ '/' ∧ c ≠ '?' ∧ c ≠ '#')
  (netloc, l.drop netloc.length)

/-- `urllib.parse.urlsplit(url)` with default arguments: strip unsafe
characters, detect a scheme (first char alphabetic, all scheme chars,
lowercased), a `//`-introduced netloc, then split off the fragment at
the first `#` and the query at the first `?`. -/
def urlsplit (url0 : String) : UrlParts :=
  let url := removeUnsafeBytes (stripC0Space url0)
  let l := url.toList
  let schemeRest : String × List Char :=
    match findIdxChar l ':' with
    | some i =>
      if 0 < i ∧ (l.headD ' ').isAlpha ∧ (l.take i).all schemeChar then
        (String.mk ((l.take i).map Char.toLower), l.drop (i + 1))
      else ("", l)
    | none => ("", l)
  let scheme := schemeRest.1
  let netlocRest : List Char × List Char :=
    if ['/', '/'].isPrefixOf schemeRest.2 then splitNetloc (schemeRest.2.drop 2)
    else ([], schemeRest.2)
  let fragSplit : List Char × List Char :=
    match findIdxChar netlocRest.2 '#' with
    | some i => (netlocRest.2.take i, netlocRest.2.drop (i + 1))
    | none => (netlocRest.2, [])
  let querySplit : List Char × List Char :=
    match findIdxChar fragSplit.1 '?' with
    | some i => (fragSplit.1.take i, fragSplit.1.drop (i + 1))
    | none => (fragSplit.1, [])
  { scheme := scheme, netloc := String.mk netlocRest.1,
    path := String.mk querySplit.1, params := "",
    query := String.mk querySplit.2, fragment := String.mk fragSplit.2 }

/-- The schemes for which `urlparse` splits `;parameters` off the path
(`uses_params`, including the empty scheme). -/
def usesParams : List String :=
  ["", "ftp", "hdl", "prospero", "http", "imap", "https", "shttp", "rtsp",
   "rtspu", "sip", "sips", "mms", "sftp", "tel"]

/-- `_splitparams`: split at the first `;` at or after the last `/`
(anywhere when there is no `/`). -/
def splitParamsStr (l : List Char) : List Char × List Char :=
  match rfindIdxChar l '/' with
  | some j =>
    match findIdxCharFrom l ';' j with
    | some i => (l.take i, l.drop (i + 1))
    | none => (l, [])
  | none =>
    match findIdxChar l ';' with
    | some i => (l.take i, l.drop (i + 1))
    | none => (l, [])

/-- `urllib.parse.urlparse(url)`: `urlsplit` plus parameter splitting for
schemes that use `;parameters`. -/
def urlparse (url : String) : UrlParts :=
  let sp := urlsplit url
  if sp.scheme ∈ usesParams ∧ containsStr sp.path ";" then
    let pr := splitParamsStr sp.path.toList
    { sp with path := String.mk pr.1, params := String.mk pr.2 }
  else sp

/-! ## The relay client: `send_request_to_target` (`app.py`, lines
46-63).  The network is an oracle mapping the fully built outbound
request to either the decoded response text or the message of the
exception raised inside the `try` block. -/

/-- The outbound HTTP request the relay issues: connection class
(HTTPS or HTTP), host, method, path, JSON body and content type. -/
structure OutboundRequest where
  https : Bool
  netloc : String
  method : String
  path : String
  body : String
  contentType : String
deriving DecidableEq, Repr

/-- Lines 47-48: prepend `http://` when the target has neither an
`http://` nor an `https://` prefix. -/
def normalizeTarget (target : String) : String :=
  if ¬ startsWithStr target "http://" ∧ ¬ startsWithStr target "https://" then
    "http://" ++ target
  else target

/-- Lines 50-57: parse the normalized target and build the outbound
request (`path = target_parsed.path or "/"`, then append
`"?" + query` when the query is nonempty; the payload is
`json.dumps({"query": query})`; the connection is `HTTPSConnection`
exactly when the parsed scheme is `https`). -/
def buildOutbound (query : QVal) (target0 : String) : OutboundRequest :=
  let target := normalizeTarget target0
  let tp := urlparse target
  let path0 := if tp.path ≠ "" then tp.path else "/"
  let path := path0 ++ (if tp.query ≠ "" then "?" ++ tp.query else "")
  { https := tp.scheme = "https", netloc := tp.netloc, method := "POST",
    path := path, body := dumpsQueryPayload query,
    contentType := "application/json" }

/-- `send_request_to_target(query, target)` (`app.py`, lines 46-63).
Any exception raised in the `try` block is surfaced by the oracle as
`Except.error e` and turned into the `Failed to request ...` string;
the function itself is total — it never fails upward. -/
def send_request_to_target (net : OutboundRequest → Except String String)
    (query : QVal) (target : String) : String :=
  match net (buildOutbound query target) with
  | .ok text => text
  | .error e => "Failed to request " ++ normalizeTarget target ++ ": " ++ e

/-! ## Shared log state and HTTP responses -/

/-- The shared mutable state: the CLI text-log sink (one element per
`logging.info` call) and the web-visible `logs` list. -/
structure LogState where
  cli : List String
  web : List String
deriving DecidableEq, Repr

/-- An HTTP response as written by the handler: status code, optional
`Content-type` header, body text. -/
structure Response where
  status : Nat
  contentType : Option String
  body : String
deriving DecidableEq, Repr

/-! ## The raw `http.server` variant (`app.py`) -/

namespace App

/-- `log_request` (`app.py`, lines 22-43): build the display name from
the route, verbosity and client address, append the entry to the CLI
sink, and append a web entry unless `log_only_in_cli` is set or the
route is the favicon or log-view path. -/
def log_request (verbose : Bool) (route method : String)
    (query_value body : Option String) (log_only_in_cli : Bool)
    (client_address timestamp : String) (st : LogState) : LogState :=
  let route_name :=
    if route = "/" then
      if ¬ verbose then "" else client_address ++ "/"
    else
      if ¬ verbose then lstripSlash route
      else client_address ++ "/" ++ lstripSlash route
  let e1 := "[+] " ++ timestamp ++ " (" ++ method ++ ") " ++ route_name
  let e2 := if pyTruthy query_value then e1 ++ " - " ++ query_value.getD "" else e1
  let log_entry := if pyTruthy body then e2 ++ "\n" ++ body.getD "" else e2
  let cli := st.cli ++ [log_entry]
  let web :=
    if ¬ log_only_in_cli ∧ route ≠ "/favicon.ico" ∧ route ≠ "/logs" then
      st.web ++ [pyReplace (pyReplace log_entry "[+]" "") "\n" "<br>"]
    else st.web
  { cli := cli, web := web }

/-- Text of the log-view page before the joined entries (`app.py`,
lines 67-92 of the f-string template). -/
def logsHtmlPre : String :=
  "\n    <!DOCTYPE html>\n    <html lang=\"en\">\n    <head>\n" ++
  "        <meta charset=\"UTF-8\">\n" ++
  "        <meta name=\"viewport\" content=\"width=device-width, initial-scale=1.0\">\n" ++
  "        <title>Receiver Web Server</title>\n        <style>\n" ++
  "            body \x7b font-family: Arial, sans-serif; background: #f4f4f9; padding: 10px; color: #333; \x7d\n" ++
  "            .header, .footer \x7b text-align: center; padding: 10px; \x7d\n" ++
  "            .header \x7b font-size: 24px; font-weight: bold; \x7d\n" ++
  "            .log-entry \x7b background: #fff; padding: 10px; margin: 8px 0; border-radius: 8px; \x7d\n" ++
  "            #log-container \x7b max-height: 70vh; overflow-y: auto; \x7d\n" ++
  "            .refresh-btn \x7b padding: 5px 10px; cursor: pointer; margin-top: 10px; \x7d\n" ++
  "            @media (prefers-color-scheme: dark) \x7b\n" ++
  "                body \x7b background: #1e1e1e; color: #ccc; \x7d\n" ++
  "                .log-entry \x7b background: #333; color: #eee; \x7d\n" ++
  "                .footer \x7b color: #888; \x7d\n" ++
  "                .refresh-btn \x7b background-color: #444; color: #ccc; \x7d\n" ++
  "                .refresh-btn:hover \x7b background-color: #555; \x7d\n" ++
  "            \x7d\n        </style>\n    </head>\n    <body>\n" ++
  "        <div class=\"header\">Receiver Web Server</div>\n" ++
  "        <div id=\"log-container\">\n            "

/-- Text of the log-view page after the joined entries (`app.py`,
lines 94-101 of the f-string template). -/
def logsHtmlPost : String :=
  "\n        </div>\n        <div style=\"text-align: center;\">\n" ++
  "            <button class=\"refresh-btn\" onclick=\"location.reload();\">Refresh</button>\n" ++
  "        </div>\n        <div class=\"footer\">&copy; 2024 leelsey</div>\n" ++
  "    </body>\n    </html>\n    "

/-- `generate_logs_html()` (`app.py`, lines 66-101): the template with
one `div.log-entry` per web-visible log line, in order. -/
def generate_logs_html (logs : List String) : String :=
  logsHtmlPre ++
    joinSep "" (logs.map fun log =>
      "<div class=\"log-entry\">" ++ log ++ "</div>") ++
  logsHtmlPost

/-- `send_logs` (`app.py`, lines 160-165): a pure read of the log
store — renders the current web log, state unchanged. -/
def send_logs (st : LogState) : LogState × Option Response :=
  (st, some { status := 200, contentType := some "text/html",
              body := generate_logs_html st.web })

/-- Line 132: the dict comprehension
`{k: (v[0] if len(v) == 1 else v) for k, v in query_params.items()}`
guarded by the truthiness of `query_params` (`None` for an empty
parse result). -/
def rootQueryJson (query : String) : Option (List (String × QVal)) :=
  let query_params := parse_qs query
  if query_params ≠ [] then
    some (query_params.map fun p =>
      (p.1, match p.2 with
            | [v] => QVal.one v
            | l => QVal.many l))
  else none

/-- Line 133: `json.dumps(query_json, separators=(",", ":")) if
query_json else ""`. -/
def rootQueryValue (query_json : Option (List (String × QVal))) : String :=
  match query_json with
  | some d => if d ≠ [] then dumpsDict d else ""
  | none => ""

/-- `k in query_json`. -/
def hasKey (d : List (String × QVal)) (k : String) : Bool :=
  d.any (fun p => p.1 = k)

/-- The value stored under `k`, when the key is present. -/
def getKeyOpt (d : List (String × QVal)) (k : String) : Option QVal :=
  (d.find? (fun p => p.1 = k)).map (fun p => p.2)

/-- `query_json.get(k, dflt)`. -/
def getKey (d : List (String × QVal)) (k : String) (dflt : QVal) : QVal :=
  match d.find? (fun p => p.1 = k) with
  | some p => p.2
  | none => dflt

/-- Line 144: `query_json.get("q", query_json.get("req", ""))`. -/
def resolvedQuery (d : List (String × QVal)) : QVal :=
  getKey d "q" (getKey d "req" (QVal.one ""))

/-- Line 145: `query_json.get("p", query_json.get("rep", ""))`. -/
def resolvedTarget (d : List (String × QVal)) : QVal :=
  getKey d "p" (getKey d "rep" (QVal.one ""))

/-- Line 143: `("q" in query_json or "req" in query_json) and
("p" in query_json or "rep" in query_json)`. -/
def aliasCheck (d : List (String × QVal)) : Bool :=
  (hasKey d "q" || hasKey d "req") && (hasKey d "p" || hasKey d "rep")

/-- Lines 154-158: the fall-through root response — status 200, body =
`query_value` when truthy (content type `application/json`), else an
empty body with content type `text/plain`. -/
def defaultRootResponse (query_value : Option String) : Response :=
  { status := 200,
    contentType :=
      some (if pyTruthy query_value then "application/json" else "text/plain"),
    body := if pyTruthy query_value then query_value.getD "" else "" }

/-- Lines 143-158 after the logging call: when the parsed mapping is
truthy and passes the alias check and the resolved target is truthy,
the relay result is returned verbatim as a `text/plain` 200 response.
A repeated-key target resolves to a Python list, on which
`send_request_to_target` immediately evaluates `target.startswith(...)`:
that raises `AttributeError`, modelled by a `none` response (the
handler terminates without sending anything).  Otherwise the default
root response is sent. -/
def rootDispatch (net : OutboundRequest → Except String String)
    (query_value : Option String)
    (query_json : Option (List (String × QVal))) : Option Response :=
  match query_json with
  | some d =>
    if (d ≠ []) ∧ aliasCheck d then
      if truthyQVal (resolvedTarget d) then
        match resolvedTarget d with
        | QVal.one t =>
          some { status := 200, contentType := some "text/plain",
                 body := send_request_to_target net (resolvedQuery d) t }
        | QVal.many _ => none
      else some (defaultRootResponse query_value)
    else some (defaultRootResponse query_value)
  | none => some (defaultRootResponse query_value)

/-- `handle_home` (`app.py`, lines 128-158): parse and serialize the
query for the root path (`None` / no `query_value` otherwise), log the
request, then dispatch. -/
def handle_home (net : OutboundRequest → Except String String)
    (verbose : Bool) (command timestamp : String)
    (ppPath ppQuery client_address : String)
    (body : Option String) (st : LogState) : LogState × Option Response :=
  let qvj : Option String × Option (List (String × QVal)) :=
    if ppPath = "/" then
      let query_json := rootQueryJson ppQuery
      (some (rootQueryValue query_json), query_json)
    else (none, none)
  (log_request verbose ppPath command
     (if pyTruthy qvj.1 then qvj.1 else none) body false
     client_address timestamp st,
   rootDispatch net qvj.1 qvj.2)

/-- Line 110 / line 125: `f"{self.client_address[0]}:{self.server.server_port}"
if verbose else ""` — note the second component is the port the server
listens on, not the peer port of the connection. -/
def clientAddrStr (verbose : Bool) (clientHost : String) (serverPort : Nat) :
    String :=
  if verbose then clientHost ++ ":" ++ toString serverPort else ""

/-- `do_GET` (`app.py`, lines 108-119).  `_clientPort` is the peer port
of the connection (`self.client_address[1]`); the code never reads it. -/
def do_GET (net : OutboundRequest → Except String String)
    (verbose : Bool) (clientHost : String) (_clientPort serverPort : Nat)
    (rawPath timestamp : String) (st : LogState) : LogState × Option Response :=
  let parsed := urlparse rawPath
  let client_address := clientAddrStr verbose clientHost serverPort
  if parsed.path = "/favicon.ico" then
    (log_request verbose parsed.path "GET" none none true client_address
       timestamp st,
     some { status := 404, contentType := none, body := "" })
  else if parsed.path = "/logs" then
    send_logs st
  else
    handle_home net verbose "GET" timestamp parsed.path parsed.query
      client_address none st

/-- `do_POST` (`app.py`, lines 121-126): read the body, parse the path,
and delegate every POST — whatever its path — to `handle_home`. -/
def do_POST (net : OutboundRequest → Except String String)
    (verbose : Bool) (clientHost : String) (_clientPort serverPort : Nat)
    (rawPath bodyText timestamp : String) (st : LogState) :
    LogState × Option Response :=
  let parsed := urlparse rawPath
  let client_address := clientAddrStr verbose clientHost serverPort
  handle_home net verbose "POST" timestamp parsed.path parsed.query
    client_address (some bodyText) st

end App

/-! ## The Flask variant (`main.py`) -/

namespace Flask

/-- `log_request` (`main.py`, lines 15-38): `/q` gets the `[query]`
label with the query value (empty text for `None`), the root path the
`[root]` label, any other route `[<route stripped of slashes>]`; the
entry always goes to the CLI sink and, unless `log_only_in_cli`, to the
web log with line breaks turned into `<br>`. -/
def log_request (route method : String) (query_value body : Option String)
    (log_only_in_cli : Bool) (timestamp : String) (st : LogState) : LogState :=
  let entry0 :=
    if route = "/q" then
      "[query] " ++ method ++ " " ++ timestamp ++ ": " ++ query_value.getD ""
    else
      let route_name :=
        if route = "/" then "[root]" else "[" ++ stripSlash route ++ "]"
      let e := route_name ++ " " ++ method ++ " " ++ timestamp
      if pyTruthy query_value then e ++ ": " ++ query_value.getD "" else e
  let log_entry := if pyTruthy body then entry0 ++ "\n" ++ body.getD "" else entry0
  let cli := st.cli ++ [log_entry]
  let web :=
    if ¬ log_only_in_cli then st.web ++ [pyReplace log_entry "\n" "<br>"]
    else st.web
  { cli := cli, web := web }

/-- `other_routes` (`main.py`, lines 86-91), the catch-all for every
path without a dedicated route: log with the path as route label, the
path segment as `query_value` and the request body as `body`, and
respond with the path segment.  `data` is the decoded request body
(the `request.get_json()` branch for JSON content types is represented
by the same text). -/
def other_routes (subpath method data timestamp : String) (st : LogState) :
    LogState × String :=
  let route_name := "/" ++ subpath
  let st1 := log_request route_name method (some subpath) (some data) false
    timestamp st
  (st1, subpath)

/-- `get_logs` (`main.py`, lines 55-83): log the access CLI-only, then
render the current web log (the Jinja loop shows the entries in
insertion order; the rendered list stands for the page). -/
def get_logs (timestamp : String) (st : LogState) : LogState × List String :=
  let st1 := log_request "/logs" "GET" none none true timestamp st
  (st1, st1.web)

end Flask

/-! ## Helper lemmas -/

/-- A parsed root query mapping coming from `rootQueryJson` is never the
empty mapping. -/
theorem rootQueryJson_ne_nil (qs : String) (d : List (String × QVal))
    (h : App.rootQueryJson qs = some d) : d ≠ [] := by
  unfold App.rootQueryJson at h
  by_cases hq : parse_qs qs = []
  · simp [hq] at h
  · simp only [ne_eq, hq, not_false_eq_true, if_true, Option.some.injEq] at h
    intro hnil
    rw [hnil] at h
    exact hq (List.map_eq_nil_iff.mp h)

/-- The compact JSON serialization of a mapping is never the empty
string (it starts with an opening brace). -/
theorem dumpsDict_ne_empty (d : List (String × QVal)) : dumpsDict d ≠ "" := by
  unfold dumpsDict
  generalize joinSep "," (d.map fun p => jsonStr p.1 ++ ":" ++ dumpsQVal p.2) = s
  obtain ⟨l⟩ := s
  intro h
  have h2 := congrArg String.data h
  simp [String.append] at h2

/-- For the root path, the response computed by `handle_home` is the
dispatch on the parsed query. -/
theorem handle_home_root_snd (net : OutboundRequest → Except String String)
    (v : Bool) (cmd ts pq ca : String) (body : Option String) (st : LogState) :
    (App.handle_home net v cmd ts "/" pq ca body st).2 =
      App.rootDispatch net (some (App.rootQueryValue (App.rootQueryJson pq)))
        (App.rootQueryJson pq) := rfl

/-- The dispatch takes the relay branch when the mapping passes the
alias check and the resolved target is a nonempty string. -/
theorem rootDispatch_relay (net : OutboundRequest → Except String String)
    (qv : Option String) (d : List (String × QVal)) (t : String)
    (hne : d ≠ []) (hal : App.aliasCheck d = true)
    (ht : App.resolvedTarget d = QVal.one t) (htt : t ≠ "") :
    App.rootDispatch net qv (some d) =
      some { status := 200, contentType := some "text/plain",
             body := send_request_to_target net (App.resolvedQuery d) t } := by
  unfold App.rootDispatch
  simp [ht, hal, hne, truthyQVal, htt]

/-- The dispatch falls through to the default root response when the
alias check fails or the resolved target is falsy. -/
theorem rootDispatch_default (net : OutboundRequest → Except String String)
    (qv : Option String) (d : List (String × QVal))
    (h2 : App.aliasCheck d = false ∨
      truthyQVal (App.resolvedTarget d) = false) :
    App.rootDispatch net qv (some d) = some (App.defaultRootResponse qv) := by
  rcases h2 with h2 | h2
  · simp [App.rootDispatch, h2]
  · simp [App.rootDispatch, h2]

/-- `log_request` appends at most one entry to the web log. -/
theorem log_request_web_suffix (v : Bool) (route method : String)
    (qv b : Option String) (loc : Bool) (ca ts : String) (st : LogState) :
    ∃ t : List String,
      (App.log_request v route method qv b loc ca ts st).web = st.web ++ t ∧
      t.length ≤ 1 := by
  unfold App.log_request
  dsimp only
  by_cases h : ¬ loc = true ∧ route ≠ "/favicon.ico" ∧ route ≠ "/logs"
  · rw [if_pos h]
    exact ⟨_, rfl, by simp⟩
  · rw [if_neg h]
    exact ⟨[], by simp, by simp⟩

/-- `getKey` returns the stored value when the key is present, the
default otherwise. -/
theorem getKey_eq (d : List (String × QVal)) (k : String) (dflt : QVal) :
    App.getKey d k dflt =
      match App.getKeyOpt d k with
      | some v => v
      | none => dflt := by
  unfold App.getKey App.getKeyOpt
  cases d.find? (fun p => p.1 = k) <;> simp

/-! ## Claims -/

/-- C1 (amended): for every root-path request whose parsed query mapping
passes the alias check (`q`/`req` and `p`/`rep`) and whose resolved
target is a nonempty *string* — i.e. the target alias was not a
repeated key — the server invokes the relay client with the resolved
query and target and responds HTTP 200, `Content-type: text/plain`,
with a body equal verbatim to the string the relay client returned.
(As originally stated the claim also covered repeated-key targets,
where the handler instead raises; see the counterexample.) -/
theorem c1_relay_response (net : OutboundRequest → Except String String)
    (v : Bool) (cmd ts qs ca : String) (body : Option String) (st : LogState)
    (d : List (String × QVal)) (t : String)
    (hq : App.rootQueryJson qs = some d)
    (hal : App.aliasCheck d = true)
    (ht : App.resolvedTarget d = QVal.one t)
    (htt : t ≠ "") :
    (App.handle_home net v cmd ts "/" qs ca body st).2 =
      some { status := 200, contentType := some "text/plain",
             body := send_request_to_target net (App.resolvedQuery d) t } := by
  rw [handle_home_root_snd, hq]
  exact rootDispatch_relay net _ d t (rootQueryJson_ne_nil qs d hq) hal ht htt

/-- C1, counterexample to the claim as stated: the root request
`?q=a&p=x&p=y` has a non-empty parsed mapping containing a query alias
and a target alias with a non-empty resolved target (the list
`["x", "y"]`), yet the server sends no response at all — resolving a
repeated target key yields a Python list and
`target.startswith("http://")` raises `AttributeError`. -/
theorem c1_repeated_target_counterexample :
    App.rootQueryJson "q=a&p=x&p=y" =
      some [("q", QVal.one "a"), ("p", QVal.many ["x", "y"])] ∧
    App.aliasCheck [("q", QVal.one "a"), ("p", QVal.many ["x", "y"])] = true ∧
    truthyQVal
      (App.resolvedTarget [("q", QVal.one "a"), ("p", QVal.many ["x", "y"])]) =
      true ∧
    (App.handle_home (fun _ => Except.ok "pong") false "GET" "T" "/"
        "q=a&p=x&p=y" "" none ⟨[], []⟩).2 = none := by
  decide

/-- C1, witness: the request `?q=hello&p=example.com` relays and echoes
the relay result verbatim. -/
theorem c1_relay_witness :
    (App.handle_home (fun r => Except.ok ("echo:" ++ r.path)) false "GET" "T"
        "/" "q=hello&p=example.com" "" none ⟨[], []⟩).2 =
      some { status := 200, contentType := some "text/plain",
             body := send_request_to_target (fun r => Except.ok ("echo:" ++ r.path))
               (App.resolvedQuery
                 [("q", QVal.one "hello"), ("p", QVal.one "example.com")])
               "example.com" } :=
  c1_relay_response (fun r => Except.ok ("echo:" ++ r.path)) false "GET" "T"
    "q=hello&p=example.com" "" none ⟨[], []⟩
    [("q", QVal.one "hello"), ("p", QVal.one "example.com")] "example.com"
    (by decide) (by decide) (by decide) (by decide)

/-- C2: the relay client never fails upward — on a failing outbound call
it *returns* the string `Failed to request <target>: <error detail>`
(with the normalized target), on a successful call it returns the
response body, and the receiver answers its own caller with HTTP 200
carrying exactly the relay result as the body. -/
theorem c2_relay_failure_is_return_value
    (net : OutboundRequest → Except String String) (query : QVal)
    (e reply : String) (v : Bool) (cmd ts qs ca target : String)
    (body : Option String) (st : LogState) (d : List (String × QVal))
    (hq : App.rootQueryJson qs = some d)
    (hal : App.aliasCheck d = true)
    (ht : App.resolvedTarget d = QVal.one target)
    (htt : target ≠ "") :
    (net (buildOutbound query target) = Except.error e →
      send_request_to_target net query target =
        "Failed to request " ++ normalizeTarget target ++ ": " ++ e) ∧
    (net (buildOutbound query target) = Except.ok reply →
      send_request_to_target net query target = reply) ∧
    (App.handle_home net v cmd ts "/" qs ca body st).2 =
      some { status := 200, contentType := some "text/plain",
             body := send_request_to_target net (App.resolvedQuery d) target } := by
  refine ⟨?_, ?_, ?_⟩
  · intro h; unfold send_request_to_target; rw [h]
  · intro h; unfold send_request_to_target; rw [h]
  · rw [handle_home_root_snd, hq]
    exact rootDispatch_relay net _ d target (rootQueryJson_ne_nil qs d hq)
      hal ht htt

/-- C2, witness: with every outbound call failing with `timed out`, the
relay returns the formatted failure text and the receiver responds 200
with that text as the body. -/
theorem c2_failure_witness :
    send_request_to_target (fun _ => Except.error "timed out")
        (QVal.one "hello") "example.com" =
      "Failed to request http://example.com: timed out" ∧
    (App.handle_home (fun _ => Except.error "timed out") false "GET" "T" "/"
        "q=hello&p=example.com" "" none ⟨[], []⟩).2 =
      some { status := 200, contentType := some "text/plain",
             body := "Failed to request http://example.com: timed out" } := by
  have h := c2_relay_failure_is_return_value (fun _ => Except.error "timed out")
    (QVal.one "hello") "timed out" "unused" false "GET" "T"
    "q=hello&p=example.com" "" "example.com" none ⟨[], []⟩
    [("q", QVal.one "hello"), ("p", QVal.one "example.com")]
    (by decide) (by decide) (by decide) (by decide)
  exact ⟨(h.1 rfl).trans (by decide), (h.2.2).trans (by decide)⟩

/-- C3: the relay client prepends `http://` to a target lacking an
`http://` or `https://` prefix, chooses HTTPS exactly when the
normalized URL parses with scheme `https`, preserves the parsed
netloc, and builds the outbound path as the path component (or `/`
when empty) followed by `?` plus the query component when one is
present; the outbound request is a POST of the compact JSON query
payload with content type `application/json`. -/
theorem c3_target_normalization (query : QVal) (target : String) :
    normalizeTarget target =
      (if startsWithStr target "http://" || startsWithStr target "https://"
       then target else "http://" ++ target) ∧
    ((buildOutbound query target).https = true ↔
      (urlparse (normalizeTarget target)).scheme = "https") ∧
    (buildOutbound query target).netloc =
      (urlparse (normalizeTarget target)).netloc ∧
    (buildOutbound query target).path =
      (if (urlparse (normalizeTarget target)).path = "" then "/"
       else (urlparse (normalizeTarget target)).path) ++
      (if (urlparse (normalizeTarget target)).query = "" then ""
       else "?" ++ (urlparse (normalizeTarget target)).query) ∧
    (buildOutbound query target).method = "POST" ∧
    (buildOutbound query target).body = dumpsQueryPayload query ∧
    (buildOutbound query target).contentType = "application/json" := by
  refine ⟨?_, ?_, rfl, ?_, rfl, rfl, rfl⟩
  · unfold normalizeTarget
    by_cases h1 : startsWithStr target "http://" <;>
      by_cases h2 : startsWithStr target "https://" <;> simp [h1, h2]
  · simp [buildOutbound, decide_eq_true_eq]
  · unfold buildOutbound
    dsimp only
    by_cases hp : (urlparse (normalizeTarget target)).path = "" <;>
      by_cases hq : (urlparse (normalizeTarget target)).query = "" <;>
        simp [hp, hq]

/-- C4: for every root-path request in which the alias check fails or
the resolved target is falsy, the response is HTTP 200 with body the
compactly serialized query JSON and content type `application/json`
when parameters were present, and an empty `text/plain` body
otherwise. -/
theorem c4_root_fallthrough (net : OutboundRequest → Except String String)
    (v : Bool) (cmd ts qs ca : String) (body : Option String) (st : LogState)
    (h : Option.all
        (fun d => !(App.aliasCheck d && truthyQVal (App.resolvedTarget d)))
        (App.rootQueryJson qs) = true) :
    (App.handle_home net v cmd ts "/" qs ca body st).2 =
      some { status := 200,
             contentType := some (match App.rootQueryJson qs with
                                  | some _ => "application/json"
                                  | none => "text/plain"),
             body := match App.rootQueryJson qs with
                     | some d => dumpsDict d
                     | none => "" } := by
  rw [handle_home_root_snd]
  rcases hq : App.rootQueryJson qs with _ | d
  · rfl
  · have hd : d ≠ [] := rootQueryJson_ne_nil qs d hq
    rw [hq] at h
    have h2 : App.aliasCheck d = false ∨
        truthyQVal (App.resolvedTarget d) = false := by
      cases ha : App.aliasCheck d
      · exact Or.inl rfl
      · cases htv : truthyQVal (App.resolvedTarget d)
        · exact Or.inr rfl
        · exfalso
          simp [Option.all, ha, htv] at h
    rw [rootDispatch_default net _ d h2]
    have hdef :
        some (App.defaultRootResponse
          (some (App.rootQueryValue (some d)))) =
        some { status := 200, contentType := some "application/json",
               body := dumpsDict d } := by
      simp [App.rootQueryValue, hd, App.defaultRootResponse, pyTruthy,
        dumpsDict_ne_empty d]
    exact hdef

/-- C4, witness: `?foo=bar` matches no alias pair and echoes the parsed
query as compact JSON. -/
theorem c4_fallthrough_witness :
    (App.handle_home (fun _ => Except.ok "pong") false "GET" "T" "/" "foo=bar"
        "" none ⟨[], []⟩).2 =
      some { status := 200, contentType := some "application/json",
             body := "\x7b\"foo\":\"bar\"\x7d" } := by
  have h := c4_root_fallthrough (fun _ => Except.ok "pong") false "GET" "T"
    "foo=bar" "" none ⟨[], []⟩ (by decide)
  exact h.trans (by decide)

/-- C5 (amended): favicon requests in the raw variant and log-view
requests in both variants append nothing to the web-visible log; the
favicon request and the Flask log-view request each write exactly one
CLI line, but a GET of the log-view path in the raw variant writes no
CLI line at all (it bypasses `log_request` entirely), and in the Flask
variant a favicon request falls to the catch-all route and *is*
web-logged. -/
theorem c5_web_exclusion_cli_lines :
    (∀ (net : OutboundRequest → Except String String) (v : Bool)
        (ch : String) (cp sp : Nat) (ts : String) (st : LogState),
       (App.do_GET net v ch cp sp "/favicon.ico" ts st).1.web = st.web ∧
       ∃ e, (App.do_GET net v ch cp sp "/favicon.ico" ts st).1.cli =
         st.cli ++ [e]) ∧
    (∀ (net : OutboundRequest → Except String String) (v : Bool)
        (ch : String) (cp sp : Nat) (ts : String) (st : LogState),
       (App.do_GET net v ch cp sp "/logs" ts st).1 = st) ∧
    (∀ (ts : String) (st : LogState),
       (Flask.get_logs ts st).1.web = st.web ∧
       ∃ e, (Flask.get_logs ts st).1.cli = st.cli ++ [e]) ∧
    (∀ (method data ts : String) (st : LogState),
       ∃ e, (Flask.other_routes "favicon.ico" method data ts st).1.web =
         st.web ++ [e]) := by
  refine ⟨fun net v ch cp sp ts st => ⟨rfl, ⟨_, rfl⟩⟩,
          fun net v ch cp sp ts st => rfl,
          fun ts st => ⟨rfl, ⟨_, rfl⟩⟩,
          fun method data ts st => ⟨_, rfl⟩⟩

/-- C5, counterexample to the claim as stated: a GET of the log-view
path in the raw variant leaves the whole state unchanged — in
particular the CLI sink receives zero lines, not exactly one. -/
theorem c5_logview_counterexample :
    (App.do_GET (fun _ => Except.ok "") false "1.2.3.4" 5678 80 "/logs" "T"
        ⟨[], []⟩).1 = ⟨[], []⟩ ∧
    ((App.do_GET (fun _ => Except.ok "") false "1.2.3.4" 5678 80 "/logs" "T"
        ⟨[], []⟩).1.cli.length == 1) = false := by
  decide

/-- C6 (amended): in the Flask variant every other-path request is
answered with the path segment and logged with the segment as
`query_value` and the request body as `body`; in the raw variant a
non-root path yields an empty `text/plain` 200 response and its log
entry carries no `query_value` (the segment appears only inside the
route label). -/
theorem c6_other_path_echo :
    (∀ (subpath method data ts : String) (st : LogState),
       (Flask.other_routes subpath method data ts st).2 = subpath ∧
       (Flask.other_routes subpath method data ts st).1 =
         Flask.log_request ("/" ++ subpath) method (some subpath) (some data)
           false ts st) ∧
    (∀ (net : OutboundRequest → Except String String) (v : Bool)
        (cmd ts pp pq ca : String) (body : Option String) (st : LogState),
       pp ≠ "/" →
       (App.handle_home net v cmd ts pp pq ca body st).2 =
         some { status := 200, contentType := some "text/plain", body := "" } ∧
       (App.handle_home net v cmd ts pp pq ca body st).1 =
         App.log_request v pp cmd none body false ca ts st) := by
  constructor
  · intro subpath method data ts st
    exact ⟨rfl, rfl⟩
  · intro net v cmd ts pp pq ca body st h
    unfold App.handle_home
    dsimp only
    rw [if_neg h]
    exact ⟨rfl, rfl⟩

/-- C6, witness: the raw variant answers `/ping` with an empty body
while the Flask variant answers with the segment `ping`. -/
theorem c6_other_path_witness :
    (App.handle_home (fun _ => Except.ok "") false "POST" "T" "/ping" ""
        "" (some "hello") ⟨[], []⟩).2 =
      some { status := 200, contentType := some "text/plain", body := "" } ∧
    (Flask.other_routes "ping" "POST" "hello" "T" ⟨[], []⟩).2 = "ping" := by
  constructor
  · exact (c6_other_path_echo.2 (fun _ => Except.ok "") false "POST" "T"
      "/ping" "" "" (some "hello") ⟨[], []⟩ (by decide)).1
  · exact (c6_other_path_echo.1 "ping" "POST" "hello" "T" ⟨[], []⟩).1

/-- C6, counterexample to the claim as stated: in the raw variant a
POST of body `hello` to `/ping` is answered with an *empty* body, not
the path segment `ping`, and the log entry records no `query_value`
(the entry is the route label plus the body only). -/
theorem c6_app_counterexample :
    (App.do_POST (fun _ => Except.ok "") false "1.2.3.4" 5678 80 "/ping"
        "hello" "T" ⟨[], []⟩).1.cli = ["[+] T (POST) ping\nhello"] ∧
    ((App.do_POST (fun _ => Except.ok "") false "1.2.3.4" 5678 80 "/ping"
        "hello" "T" ⟨[], []⟩).2.map Response.body == some "ping") = false ∧
    (App.do_POST (fun _ => Except.ok "") false "1.2.3.4" 5678 80 "/ping"
        "hello" "T" ⟨[], []⟩).2.map Response.body = some "" := by
  decide

/-- C7: a root-path request with an empty query string yields
`query_json = None`, and the classifier never produces an empty
mapping — `None` is the only representation of "no parameters", so
downstream consumers can distinguish it from a non-empty parameter
set. -/
theorem c7_empty_query_is_none :
    App.rootQueryJson "" = none ∧
    ∀ qs : String,
      Option.all (fun d => !d.isEmpty) (App.rootQueryJson qs) = true := by
  refine ⟨by decide, ?_⟩
  intro qs
  rcases hq : App.rootQueryJson qs with _ | d
  · rfl
  · cases d with
    | nil => exact absurd rfl (rootQueryJson_ne_nil qs [] hq)
    | cons a l => rfl

/-- C8: the log store is append-only — `log_request` appends at most
one entry to the web-visible log (and hence so do the GET and POST
handlers), never touching existing entries, and rendering the log view
is a pure read: iterating it any number of times leaves the state
exactly as it was. -/
theorem c8_append_only :
    (∀ (v : Bool) (route method : String) (qv b : Option String) (loc : Bool)
        (ca ts : String) (st : LogState),
       ∃ t, (App.log_request v route method qv b loc ca ts st).web =
         st.web ++ t ∧ t.length ≤ 1) ∧
    (∀ st, (App.send_logs st).1 = st) ∧
    (∀ st n, Nat.iterate (fun s => (App.send_logs s).1) n st = st) ∧
    (∀ (net : OutboundRequest → Except String String) (v : Bool)
        (ch : String) (cp sp : Nat) (raw ts : String) (st : LogState),
       ∃ t, (App.do_GET net v ch cp sp raw ts st).1.web = st.web ++ t ∧
         t.length ≤ 1) ∧
    (∀ (net : OutboundRequest → Except String String) (v : Bool)
        (ch : String) (cp sp : Nat) (raw b ts : String) (st : LogState),
       ∃ t, (App.do_POST net v ch cp sp raw b ts st).1.web = st.web ++ t ∧
         t.length ≤ 1) := by
  refine ⟨log_request_web_suffix, fun st => rfl, ?_, ?_, ?_⟩
  · intro st n
    exact @Function.iterate_fixed _ (fun s => (App.send_logs s).1) st rfl n
  · intro net v ch cp sp raw ts st
    unfold App.do_GET
    dsimp only
    by_cases h1 : (urlparse raw).path = "/favicon.ico"
    · rw [if_pos h1]
      exact log_request_web_suffix _ _ _ _ _ _ _ _ _
    · rw [if_neg h1]
      by_cases h2 : (urlparse raw).path = "/logs"
      · rw [if_pos h2]
        exact ⟨[], by simp [App.send_logs], by simp⟩
      · rw [if_neg h2]
        exact log_request_web_suffix _ _ _ _ _ _ _ _ _
  · intro net v ch cp sp raw b ts st
    exact log_request_web_suffix _ _ _ _ _ _ _ _ _

/-- C9 (amended): the client origin string pairs the caller's address
with the *server's listening port*; it is incorporated into the route
label exactly when the verbose mode is on, and with verbose off the
handlers, and `log_request` itself, are entirely independent of the
peer identity (the origin is absent from the entry). -/
theorem c9_client_origin :
    (∀ (ch : String) (sp : Nat),
       App.clientAddrStr true ch sp = ch ++ ":" ++ toString sp) ∧
    (∀ (ch : String) (sp : Nat), App.clientAddrStr false ch sp = "") ∧
    (∀ (net : OutboundRequest → Except String String) (ch ch2 : String)
        (cp cp2 sp : Nat) (raw ts : String) (st : LogState),
       App.do_GET net false ch cp sp raw ts st =
         App.do_GET net false ch2 cp2 sp raw ts st) ∧
    (∀ (net : OutboundRequest → Except String String) (ch ch2 : String)
        (cp cp2 sp : Nat) (raw b ts : String) (st : LogState),
       App.do_POST net false ch cp sp raw b ts st =
         App.do_POST net false ch2 cp2 sp raw b ts st) ∧
    (∀ (route method : String) (qv b : Option String) (loc : Bool)
        (ca ca2 ts : String) (st : LogState),
       App.log_request false route method qv b loc ca ts st =
         App.log_request false route method qv b loc ca2 ts st) ∧
    (∀ (method ts ca : String) (st : LogState),
       ∃ pre, (App.log_request true "/" method none none false ca ts st).cli =
         st.cli ++ [pre ++ (ca ++ "/")]) := by
  exact ⟨fun ch sp => rfl, fun ch sp => rfl,
         fun net ch ch2 cp cp2 sp raw ts st => rfl,
         fun net ch ch2 cp cp2 sp raw b ts st => rfl,
         fun route method qv b loc ca ca2 ts st => rfl,
         fun method ts ca st => ⟨_, rfl⟩⟩

/-- C9, counterexample to the claim as stated: with verbose on, a
caller at `1.2.3.4:5678` hitting a server listening on port 80 is
recorded with origin `1.2.3.4:80` — the caller's address joined with
the *server's* port — so the entry does not identify the caller as
`address:port`. -/
theorem c9_server_port_counterexample :
    (App.do_GET (fun _ => Except.ok "") true "1.2.3.4" 5678 80 "/x" "T"
        ⟨[], []⟩).1.cli = ["[+] T (GET) 1.2.3.4:80/x"] ∧
    containsStr "[+] T (GET) 1.2.3.4:80/x" ("1.2.3.4" ++ ":" ++ toString 5678) =
      false ∧
    containsStr "[+] T (GET) 1.2.3.4:80/x" ("1.2.3.4" ++ ":" ++ toString 80) =
      true := by
  decide

/-- C10: alias precedence in the relay dispatch — the relayed query is
taken from key `q` when that key is present and from `req` only
otherwise, and the relay target is taken from key `p` when present and
from `rep` only otherwise. -/
theorem c10_alias_precedence (d : List (String × QVal)) :
    (∀ v, App.getKeyOpt d "q" = some v → App.resolvedQuery d = v) ∧
    (App.getKeyOpt d "q" = none →
      ∀ w, App.getKeyOpt d "req" = some w → App.resolvedQuery d = w) ∧
    (∀ v, App.getKeyOpt d "p" = some v → App.resolvedTarget d = v) ∧
    (App.getKeyOpt d "p" = none →
      ∀ w, App.getKeyOpt d "rep" = some w → App.resolvedTarget d = w) := by
  refine ⟨?_, ?_, ?_, ?_⟩
  · intro v hv
    unfold App.resolvedQuery
    rw [getKey_eq, hv]
  · intro h0 w hw
    unfold App.resolvedQuery
    rw [getKey_eq, h0, getKey_eq, hw]
  · intro v hv
    unfold App.resolvedTarget
    rw [getKey_eq, hv]
  · intro h0 w hw
    unfold App.resolvedTarget
    rw [getKey_eq, h0, getKey_eq, hw]

/-- C10, witness: with both aliases present the primary one wins, and
the secondary one is used when the primary is absent. -/
theorem c10_precedence_witness :
    App.resolvedQuery [("req", QVal.one "r"), ("q", QVal.one "a")] =
      QVal.one "a" ∧
    App.resolvedTarget [("p", QVal.one "x"), ("rep", QVal.one "y")] =
      QVal.one "x" ∧
    App.resolvedQuery [("req", QVal.one "r"), ("z", QVal.one "0")] =
      QVal.one "r" ∧
    App.resolvedTarget [("q", QVal.one "a"), ("rep", QVal.one "y")] =
      QVal.one "y" := by
  refine ⟨?_, ?_, ?_, ?_⟩
  · exact (c10_alias_precedence _).1 _ (by decide)
  · exact (c10_alias_precedence _).2.2.1 _ (by decide)
  · exact (c10_alias_precedence _).2.1 (by decide) _ (by decide)
  · exact (c10_alias_precedence _).2.2.2 (by decide) _ (by decide)

end RwsPy
